import Mathlib

/-!
# kvm-for-fun: long-mode bootstrap and exit dispatch (`main.c`)

A shallow embedding of `setup_page_tables`, `setup_segment_registers`, `kvm` and
`main` of `main.c`, followed by the properties proved about them.

Conventions of the embedding

* Machine integers are natural numbers; a store into a fixed-width field reduces
  modulo the width where the value could exceed it.
* Guest memory is the buffer behind the host pointer `mem`, a map from byte offset
  to byte value. A `uint64_t` store writes eight bytes, least significant first
  (the host is x86-64).
* The host kernel is an explicit input (`Host`): the value every system call
  returns, the register contents `KVM_GET_REGS` / `KVM_GET_SREGS` write back, and
  the contents of the shared `kvm_run` area after each successive `KVM_RUN`.
  `kvm` produces the list of system calls it issues, with their arguments, the
  bytes it writes to standard output, the text it writes to standard error and
  the way it stops.
* Types and constants of `<linux/kvm.h>` are transcribed from that header.
-/

namespace Kvm

/-! ## Guest memory -/

/-- Byte contents of the buffer behind `mem`, by offset from `mem`. -/
abbrev Mem := Nat → Nat

/-- A fresh `MAP_ANON` mapping: every byte is zero. -/
def Mem.zero : Mem := fun _ => 0

/-- Store of the `uint64_t` value `v` at byte offset `off`, little endian. -/
def store64 (m : Mem) (off v : Nat) : Mem :=
  fun a => if off ≤ a ∧ a < off + 8 then v % 2 ^ 64 / 256 ^ (a - off) % 256 else m a

/-- Load of the `uint64_t` at byte offset `off`, little endian. -/
def load64 (m : Mem) (off : Nat) : Nat :=
  m off + m (off + 1) * 256 + m (off + 2) * 256 ^ 2 + m (off + 3) * 256 ^ 3
    + m (off + 4) * 256 ^ 4 + m (off + 5) * 256 ^ 5 + m (off + 6) * 256 ^ 6
    + m (off + 7) * 256 ^ 7

/-- The libc call `memcpy(mem + dst, src, len)` where `src` is the `len` source bytes. -/
def memcpy (m : Mem) (dst : Nat) (src : List Nat) : Mem :=
  fun a => if dst ≤ a ∧ a < dst + src.length then src.getD (a - dst) 0 else m a

/-! ## Structures of `<linux/kvm.h>` -/

/-- The header's `struct kvm_segment`. -/
structure kvm_segment where
  base : Nat
  limit : Nat
  selector : Nat
  type : Nat
  present : Nat
  dpl : Nat
  db : Nat
  s : Nat
  l : Nat
  g : Nat
  avl : Nat
  unusable : Nat
  padding : Nat
deriving DecidableEq, Repr

/-- The header's `struct kvm_dtable`. -/
structure kvm_dtable where
  base : Nat
  limit : Nat
  padding : List Nat
deriving DecidableEq, Repr

/-- The header's `struct kvm_sregs`. -/
structure kvm_sregs where
  cs : kvm_segment
  ds : kvm_segment
  es : kvm_segment
  fs : kvm_segment
  gs : kvm_segment
  ss : kvm_segment
  tr : kvm_segment
  ldt : kvm_segment
  gdt : kvm_dtable
  idt : kvm_dtable
  cr0 : Nat
  cr2 : Nat
  cr3 : Nat
  cr4 : Nat
  cr8 : Nat
  efer : Nat
  apic_base : Nat
  interrupt_bitmap : List Nat
deriving DecidableEq, Repr

/-- The header's `struct kvm_regs`. -/
structure kvm_regs where
  rax : Nat
  rbx : Nat
  rcx : Nat
  rdx : Nat
  rsi : Nat
  rdi : Nat
  rsp : Nat
  rbp : Nat
  r8 : Nat
  r9 : Nat
  r10 : Nat
  r11 : Nat
  r12 : Nat
  r13 : Nat
  r14 : Nat
  r15 : Nat
  rip : Nat
  rflags : Nat
deriving DecidableEq, Repr

/-- The header's `struct kvm_userspace_memory_region`. -/
structure kvm_userspace_memory_region where
  slot : Nat
  flags : Nat
  guest_phys_addr : Nat
  memory_size : Nat
  userspace_addr : Nat
deriving DecidableEq, Repr

/-- The member `io` of `struct kvm_run`. -/
structure kvm_run_io where
  direction : Nat
  size : Nat
  port : Nat
  count : Nat
  data_offset : Nat

/-- The member `fail_entry` of `struct kvm_run`. -/
structure kvm_run_fail_entry where
  hardware_entry_failure_reason : Nat

/-- The member `internal` of `struct kvm_run`. -/
structure kvm_run_internal where
  suberror : Nat

/-- The shared `struct kvm_run` area as `kvm` reads it after a `KVM_RUN`: the exit reason,
the members of the exit union the switch reads, and the raw bytes of the mapping by offset
from `run` (the I/O data lives at `io.data_offset` in it). -/
structure kvm_run where
  exit_reason : Nat
  io : kvm_run_io
  fail_entry : kvm_run_fail_entry
  internal : kvm_run_internal
  bytes : Nat → Nat

/-- Exit reason `KVM_EXIT_IO` of the header. -/
def KVM_EXIT_IO : Nat := 2
/-- Exit reason `KVM_EXIT_HLT` of the header. -/
def KVM_EXIT_HLT : Nat := 5
/-- Exit reason `KVM_EXIT_SHUTDOWN` of the header. -/
def KVM_EXIT_SHUTDOWN : Nat := 8
/-- Exit reason `KVM_EXIT_FAIL_ENTRY` of the header. -/
def KVM_EXIT_FAIL_ENTRY : Nat := 9
/-- Exit reason `KVM_EXIT_INTERNAL_ERROR` of the header. -/
def KVM_EXIT_INTERNAL_ERROR : Nat := 17
/-- I/O direction `KVM_EXIT_IO_IN` of the header. -/
def KVM_EXIT_IO_IN : Nat := 0
/-- I/O direction `KVM_EXIT_IO_OUT` of the header. -/
def KVM_EXIT_IO_OUT : Nat := 1

/-! ## `setup_page_tables` and `setup_segment_registers` -/

/-- The function `setup_page_tables(mem, sregs)`: three `uint64_t` stores into guest
memory, then the assignments to `cr3`, `cr4`, `cr0` and `efer`. The literal `0x80050033`
does not fit `int`, so it has type `unsigned int` and widens to 64 bits by zero
extension. -/
def setup_page_tables (mem : Mem) (sregs : kvm_sregs) : Mem × kvm_sregs :=
  let pml4_addr := 0x1000
  let pdpt_addr := 0x2000
  let pd_addr := 0x3000
  let mem := store64 mem (pml4_addr + 8 * 0) (3 ||| pdpt_addr)
  let mem := store64 mem (pdpt_addr + 8 * 0) (3 ||| pd_addr)
  let mem := store64 mem (pd_addr + 8 * 0) (3 ||| 0x80)
  let sregs := { sregs with cr3 := pml4_addr }
  let sregs := { sregs with cr4 := 1 <<< 5 }
  let sregs := { sregs with cr4 := sregs.cr4 ||| 0x600 }
  let sregs := { sregs with cr0 := 0x80050033 % 2 ^ 64 }
  let sregs := { sregs with efer := 0x500 }
  (mem, sregs)

/-- The function `setup_segment_registers(sregs)`. The members the initialiser of `seg`
leaves out (`avl`, `unusable`, `padding`) are zero. -/
def setup_segment_registers (sregs : kvm_sregs) : kvm_sregs :=
  let seg : kvm_segment :=
    { base := 0, limit := 0xffffffff, selector := 1 <<< 3, present := 1, type := 11,
      dpl := 0, db := 0, s := 1, l := 1, g := 1, avl := 0, unusable := 0, padding := 0 }
  let sregs := { sregs with cs := seg }
  let seg := { seg with type := 3 }
  let seg := { seg with selector := 2 <<< 3 }
  let sregs := { sregs with ss := seg }
  let sregs := { sregs with gs := sregs.ss }
  let sregs := { sregs with fs := sregs.gs }
  let sregs := { sregs with es := sregs.fs }
  { sregs with ds := sregs.es }

/-! ## Output primitives -/

/-- The value of a `char` read from a byte: `char` is signed on x86-64. -/
def char_of_byte (b : Nat) : Int :=
  if b % 256 < 128 then (b % 256 : Nat) else (b % 256 : Nat) - 256

/-- The byte `putchar(c)` writes: `c` converted to `unsigned char`. -/
def putchar (c : Int) : Nat := (c % 256).toNat

/-- Lowercase hexadecimal digits of `n`, as `printf` renders `%x` and `%llx`. -/
def hex (n : Nat) : String := String.mk (Nat.toDigits 16 n)

/-- Rendering by `%llx` of a 64-bit unsigned argument. -/
def fmt_llx (v : Nat) : String := hex (v % 2 ^ 64)

/-- Rendering by `%x` of a 32-bit unsigned argument. -/
def fmt_x (v : Nat) : String := hex (v % 2 ^ 32)

/-- Rendering by `%d` of a 32-bit argument: the bits are read as a signed `int`. -/
def fmt_d (v : Nat) : String :=
  toString (if v % 2 ^ 32 < 2 ^ 31 then ((v % 2 ^ 32 : Nat) : Int) else ((v % 2 ^ 32 : Nat) : Int) - 2 ^ 32)

/-- The line `errx(status, fmt, ...)` writes to standard error for the rendered message
`msg`: the program name, a colon and a space, the message, a newline. -/
def errx_line (prog msg : String) : String := prog ++ ": " ++ msg ++ "\n"

/-! ## The run loop of `kvm` -/

/-- How the loop stops. -/
inductive Stop where
  /-- A `KVM_RUN` was issued and the exit trace holds no event for it: still running. -/
  | blocked
  /-- The statement `return v` of `kvm`; `main` returns it as the process status. -/
  | returned (v : Nat)
  /-- The call `errx(status, ...)`: the process exits with `status`. -/
  | exited (status : Nat)
  /-- The read of `run->exit_reason` through a failed mapping: the process is killed. -/
  | fault
deriving DecidableEq, Repr

/-- What the loop did: the number of `KVM_RUN` calls, the bytes written to standard
output, the text written to standard error, and how it stopped. -/
structure RunResult where
  resumes : Nat
  out : List Nat
  err : String
  stop : Stop
deriving DecidableEq, Repr

/-- The byte at `run + run->io.data_offset`. -/
def data_byte (run : kvm_run) : Nat := run.bytes run.io.data_offset

/-- The `while (1)` loop of `kvm` over the contents of `run` after each successive
`KVM_RUN`, `prog` being the program name `errx` prints. -/
def run_loop (prog : String) : List kvm_run → RunResult
  | [] => { resumes := 1, out := [], err := "", stop := Stop.blocked }
  | run :: rest =>
    if run.exit_reason = KVM_EXIT_HLT then
      { resumes := 1, out := [], err := "KVM_EXIT_HLT", stop := Stop.returned 0 }
    else if run.exit_reason = KVM_EXIT_IO then
      let r := run_loop prog rest
      { r with resumes := r.resumes + 1, out := putchar (char_of_byte (data_byte run)) :: r.out }
    else if run.exit_reason = KVM_EXIT_FAIL_ENTRY then
      { resumes := 1, out := [],
        err := errx_line prog
          ("KVM_EXIT_FAIL_ENTRY: hardware_entry_failure_reason = 0x"
            ++ fmt_llx run.fail_entry.hardware_entry_failure_reason),
        stop := Stop.exited 1 }
    else if run.exit_reason = KVM_EXIT_INTERNAL_ERROR then
      { resumes := 1, out := [],
        err := errx_line prog ("KVM_EXIT_INTERNAL_ERROR: suberror = 0x" ++ fmt_x run.internal.suberror),
        stop := Stop.exited 1 }
    else if run.exit_reason = KVM_EXIT_SHUTDOWN then
      { resumes := 1, out := [], err := errx_line prog "KVM_EXIT_SHUTDOWN", stop := Stop.exited 1 }
    else
      { resumes := 1, out := [],
        err := errx_line prog ("Unhandled reason: " ++ fmt_d run.exit_reason),
        stop := Stop.exited 1 }

/-! ## The host kernel and `kvm` -/

/-- What the host kernel answers to the system calls of `kvm`, in program order. A
negative `int` result is a failed call. Both `mmap` calls return an address; the first,
anonymous one is taken to succeed and to yield zero-filled memory at `mem_addr`, the
second one (the `kvm_run` area of the vCPU) succeeds when `run_mapped` holds. A host
whose `mem_addr` is `MAP_FAILED` stands for a failed anonymous `mmap`: there the source
faults in `memcpy` (for an empty buffer, in `setup_page_tables`) before any `KVM_RUN`,
and `kvm` below does not describe the run. -/
structure Host where
  /-- Result of `open("/dev/kvm", O_RDWR | O_CLOEXEC)`. -/
  open_ret : Int
  /-- Result of `ioctl(kvmfd, KVM_CREATE_VM, 0)`. -/
  create_vm_ret : Int
  /-- Address returned by the anonymous `mmap` of guest memory. -/
  mem_addr : Nat
  /-- Result of `ioctl(vmfd, KVM_SET_USER_MEMORY_REGION, &region)`. -/
  set_user_memory_region_ret : Int
  /-- Result of `ioctl(vmfd, KVM_CREATE_VCPU, 0)`. -/
  create_vcpu_ret : Int
  /-- Result of `ioctl(kvmfd, KVM_GET_VCPU_MMAP_SIZE, NULL)`. -/
  get_vcpu_mmap_size_ret : Int
  /-- Whether the `mmap` of the `kvm_run` area succeeded. -/
  run_mapped : Bool
  /-- Contents of `regs` after `ioctl(vcpufd, KVM_GET_REGS, &regs)`. -/
  get_regs : kvm_regs
  /-- Result of `ioctl(vcpufd, KVM_SET_REGS, &regs)`. -/
  set_regs_ret : Int
  /-- Contents of `sregs` after `ioctl(vcpufd, KVM_GET_SREGS, &sregs)`. -/
  get_sregs : kvm_sregs
  /-- Result of `ioctl(vcpufd, KVM_SET_SREGS, &sregs)`. -/
  set_sregs_ret : Int
  /-- Contents of the `kvm_run` area after each successive `KVM_RUN`. -/
  exits : List kvm_run

/-- A system call issued by `kvm`, with the arguments that vary. -/
inductive Call where
  | open_kvm
  | create_vm (fd : Int)
  | mmap_mem (size : Nat)
  | set_user_memory_region (fd : Int) (region : kvm_userspace_memory_region)
  | create_vcpu (fd : Int)
  | get_vcpu_mmap_size (fd : Int)
  | mmap_run (size : Nat) (fd : Int)
  | get_regs (fd : Int)
  | set_regs (fd : Int) (regs : kvm_regs)
  | get_sregs (fd : Int)
  | set_sregs (fd : Int) (sregs : kvm_sregs)
  | run (fd : Int)
deriving DecidableEq, Repr

/-- The observable behaviour of one call of `kvm`: the system calls in program order, the
guest memory the host has written when the first `KVM_RUN` is issued, standard output,
standard error and how the function stops. -/
structure Outcome where
  calls : List Call
  mem : Mem
  out : List Nat
  err : String
  stop : Stop

/-- The loop of `kvm` as it runs on a host: `run_loop` over the exits when the `kvm_run`
area is mapped; when its `mmap` failed, `run` is `MAP_FAILED` and the read of
`run->exit_reason` after the first `KVM_RUN` faults. -/
def kvm_loop (prog : String) (host : Host) : RunResult :=
  if host.run_mapped then run_loop prog host.exits
  else { resumes := 1, out := [], err := "", stop := Stop.fault }

/-- The function `kvm(code, code_len)`, the pair `(code, code_len)` being the list of the
`code_len` bytes behind `code`. No result of a system call is tested; the descriptors are
passed on as returned. The guest buffer is taken as allocated (`mem_addr` is not
`MAP_FAILED`), so every write through `mem` goes to guest memory. -/
def kvm (prog : String) (code : List Nat) (host : Host) : Outcome :=
  let kvmfd := host.open_ret
  let vmfd := host.create_vm_ret
  let mem_size := 0x40000000
  let mem := Mem.zero
  let user_entry := 0x0
  let mem := memcpy mem user_entry code
  let region : kvm_userspace_memory_region :=
    { slot := 0, flags := 0, guest_phys_addr := 0, memory_size := mem_size,
      userspace_addr := host.mem_addr }
  let vcpufd := host.create_vcpu_ret
  let vcpu_mmap_size := (host.get_vcpu_mmap_size_ret % 2 ^ 64).toNat
  let regs := host.get_regs
  let regs := { regs with rip := 0 }
  let regs := { regs with rsp := 0x200000 }
  let regs := { regs with rflags := 0x2 }
  let sregs := host.get_sregs
  let (mem, sregs) := setup_page_tables mem sregs
  let sregs := setup_segment_registers sregs
  let loop := kvm_loop prog host
  { calls :=
      [Call.open_kvm, Call.create_vm kvmfd, Call.mmap_mem mem_size,
        Call.set_user_memory_region vmfd region, Call.create_vcpu vmfd,
        Call.get_vcpu_mmap_size kvmfd, Call.mmap_run vcpu_mmap_size vcpufd,
        Call.get_regs vcpufd, Call.set_regs vcpufd regs, Call.get_sregs vcpufd,
        Call.set_sregs vcpufd sregs]
        ++ List.replicate loop.resumes (Call.run vcpufd),
    mem := mem, out := loop.out, err := loop.err, stop := loop.stop }

/-- The array `code` of `main`: the 26 bytes of the string literal and its terminating
NUL, which `sizeof(code)` counts. -/
def main_code : List Nat :=
  [0x48, 0xB8, 0x41, 0x42, 0x43, 0x44, 0x31, 0x32, 0x33, 0x0a, 0x6a, 0x08, 0x59,
   0xBA, 0x17, 0x02, 0x00, 0x00, 0xEE, 0x48, 0xC1, 0xE8, 0x08, 0xE2, 0xF9, 0xF4, 0x00]

/-- The function `main`: `return kvm(code, sizeof(code))`. -/
def main (prog : String) (host : Host) : Outcome := kvm prog main_code host

/-- The `regs` arguments of the `KVM_SET_REGS` calls in a call list. -/
def set_regs_args : List Call → List kvm_regs
  | [] => []
  | Call.set_regs _ regs :: cs => regs :: set_regs_args cs
  | _ :: cs => set_regs_args cs

/-- The number of `KVM_RUN` calls in a call list. -/
def run_count : List Call → Nat
  | [] => 0
  | Call.run _ :: cs => run_count cs + 1
  | _ :: cs => run_count cs

/-! ## Address translation by the guest CPU -/

/-- Physical address field of a paging-structure entry (bits 51..12). -/
def entry_addr (e : Nat) : Nat := e / 2 ^ 12 % 2 ^ 40 * 2 ^ 12

/-- Bit `i` of a paging-structure entry. -/
def entry_bit (e i : Nat) : Bool := e / 2 ^ i % 2 = 1

/-- A virtual address is canonical when bits 63..47 are all equal. -/
def canonical (v : Nat) : Prop := v < 2 ^ 47 ∨ (2 ^ 64 - 2 ^ 47 ≤ v ∧ v < 2 ^ 64)

/-- The 4-level page walk the x86-64 CPU performs in long mode, over guest-physical
memory `m` from the table at `cr3`: bits 47..39 of `v` index the PML4, bits 38..30 the
PDPT, bits 29..21 the PD and bits 20..12 the PT; an entry whose bit 0 is clear is not
present and ends the walk without a translation; a PDPT or PD entry with bit 7 (page
size) set maps a 1 GiB or 2 MiB page. The result is the physical address and whether
every entry of the chain has bit 1 (writable) set. The walk is done by the hardware and
is no part of `main.c`; it is what the tables of `setup_page_tables` are built for. -/
def translate (m : Mem) (cr3 v : Nat) : Option (Nat × Bool) :=
  let e4 := load64 m (entry_addr cr3 + 8 * (v / 2 ^ 39 % 512))
  if !entry_bit e4 0 then none else
  let e3 := load64 m (entry_addr e4 + 8 * (v / 2 ^ 30 % 512))
  if !entry_bit e3 0 then none else
  if entry_bit e3 7 then
    some (e3 / 2 ^ 30 % 2 ^ 22 * 2 ^ 30 + v % 2 ^ 30, entry_bit e4 1 && entry_bit e3 1)
  else
  let e2 := load64 m (entry_addr e3 + 8 * (v / 2 ^ 21 % 512))
  if !entry_bit e2 0 then none else
  if entry_bit e2 7 then
    some (e2 / 2 ^ 21 % 2 ^ 31 * 2 ^ 21 + v % 2 ^ 21,
      entry_bit e4 1 && entry_bit e3 1 && entry_bit e2 1)
  else
  let e1 := load64 m (entry_addr e2 + 8 * (v / 2 ^ 12 % 512))
  if !entry_bit e1 0 then none else
  some (entry_addr e1 + v % 2 ^ 12,
    entry_bit e4 1 && entry_bit e3 1 && entry_bit e2 1 && entry_bit e1 1)

/-! ## Sample inputs and auxiliary definitions -/

/-- A segment as a vCPU holds it after reset (real mode, 64 KiB limit). -/
def seg_reset : kvm_segment :=
  { base := 0, limit := 0xffff, selector := 0, type := 3, present := 1, dpl := 0, db := 0,
    s := 1, l := 0, g := 0, avl := 0, unusable := 0, padding := 0 }

/-- Special registers as `KVM_GET_SREGS` returns them for a vCPU after reset. -/
def sregs_reset : kvm_sregs :=
  { cs := { seg_reset with base := 0xffff0000, selector := 0xf000, type := 11 },
    ds := seg_reset, es := seg_reset, fs := seg_reset, gs := seg_reset, ss := seg_reset,
    tr := { seg_reset with type := 11, s := 0 }, ldt := { seg_reset with type := 2, s := 0 },
    gdt := { base := 0, limit := 0xffff, padding := [0, 0, 0] },
    idt := { base := 0, limit := 0xffff, padding := [0, 0, 0] },
    cr0 := 0x60000010, cr2 := 0, cr3 := 0, cr4 := 0, cr8 := 0, efer := 0,
    apic_base := 0xfee00900, interrupt_bitmap := [0, 0, 0, 0] }

/-- A `kvm_run` area after an I/O exit of one byte `b` on `port`. -/
def io_exit (direction port b : Nat) : kvm_run :=
  { exit_reason := KVM_EXIT_IO,
    io := { direction := direction, size := 1, port := port, count := 1, data_offset := 0x1000 },
    fail_entry := { hardware_entry_failure_reason := 0 },
    internal := { suberror := 0 },
    bytes := fun a => if a = 0x1000 then b else 0 }

/-- A `kvm_run` area after an exit with reason `reason` that carries no I/O, with the
given entry-failure reason and internal suberror. -/
def plain_exit (reason failure suberror : Nat) : kvm_run :=
  { exit_reason := reason,
    io := { direction := 0, size := 0, port := 0, count := 0, data_offset := 0 },
    fail_entry := { hardware_entry_failure_reason := failure },
    internal := { suberror := suberror },
    bytes := fun _ => 0 }

/-- The `kvm_run` area after the guest executed `hlt`. -/
def halt_exit : kvm_run := plain_exit KVM_EXIT_HLT 0 0

/-- The eight `out dx, al` exits of the guest program of `main`, on port `0x217`. -/
def main_io_exits : List kvm_run :=
  [io_exit KVM_EXIT_IO_OUT 0x217 0x41, io_exit KVM_EXIT_IO_OUT 0x217 0x42,
   io_exit KVM_EXIT_IO_OUT 0x217 0x43, io_exit KVM_EXIT_IO_OUT 0x217 0x44,
   io_exit KVM_EXIT_IO_OUT 0x217 0x31, io_exit KVM_EXIT_IO_OUT 0x217 0x32,
   io_exit KVM_EXIT_IO_OUT 0x217 0x33, io_exit KVM_EXIT_IO_OUT 0x217 0x0a]

/-- The text `part` occurs in `msg`. -/
def contains_text (msg part : String) : Prop := ∃ pre post : String, msg = pre ++ part ++ post

/-- The code segment `setup_segment_registers` programs. -/
def code_segment : kvm_segment :=
  { base := 0, limit := 0xffffffff, selector := 8, present := 1, type := 11, dpl := 0,
    s := 1, l := 1, g := 1, db := 0, avl := 0, unusable := 0, padding := 0 }

/-- General registers as `KVM_GET_REGS` returns them for a vCPU after reset: `rdx` holds
the processor signature, `rip` the reset vector offset. -/
def regs_reset : kvm_regs :=
  { rax := 0, rbx := 0, rcx := 0, rdx := 0x600, rsi := 0, rdi := 0, rsp := 0, rbp := 0,
    r8 := 0, r9 := 0, r10 := 0, r11 := 0, r12 := 0, r13 := 0, r14 := 0, r15 := 0,
    rip := 0xfff0, rflags := 0x2 }

/-- A host on which every call succeeds and the guest of `main` runs to its halt. -/
def host_ok : Host :=
  { open_ret := 3, create_vm_ret := 4, mem_addr := 0x7f0000000000,
    set_user_memory_region_ret := 0, create_vcpu_ret := 5, get_vcpu_mmap_size_ret := 0x3000,
    run_mapped := true, get_regs := regs_reset, set_regs_ret := 0, get_sregs := sregs_reset,
    set_sregs_ret := 0, exits := main_io_exits ++ [halt_exit] }

/-- A code buffer of `0x1010` bytes: the code of `main`, then `nop` bytes (`0x90`). -/
def long_code : List Nat := main_code ++ List.replicate 0xff5 0x90

/-- The sixteen characters of lowercase hexadecimal notation. -/
def hex_digits : List Char := "0123456789abcdef".data

/-- The value of a hexadecimal digit character. -/
def hex_digit_value (c : Char) : Nat :=
  if c.toNat < 58 then c.toNat - 48 else c.toNat - 87

/-- The number a string of hexadecimal digits denotes, most significant digit first. -/
def hex_value (cs : List Char) : Nat := cs.foldl (fun acc c => 16 * acc + hex_digit_value c) 0

/-- The `region` arguments of the `KVM_SET_USER_MEMORY_REGION` calls in a call list. -/
def region_args : List Call → List kvm_userspace_memory_region
  | [] => []
  | Call.set_user_memory_region _ region :: cs => region :: region_args cs
  | _ :: cs => region_args cs

/-- The sizes of the anonymous guest-memory mappings requested in a call list. -/
def mmap_mem_args : List Call → List Nat
  | [] => []
  | Call.mmap_mem size :: cs => size :: mmap_mem_args cs
  | _ :: cs => mmap_mem_args cs

/-- The `sregs` arguments of the `KVM_SET_SREGS` calls in a call list. -/
def set_sregs_args : List Call → List kvm_sregs
  | [] => []
  | Call.set_sregs _ sregs :: cs => sregs :: set_sregs_args cs
  | _ :: cs => set_sregs_args cs

/-- The value an `int` holds when it is given the bits of the 32-bit unsigned `v`. -/
def int_of_u32 (v : Nat) : Int :=
  if v % 2 ^ 32 < 2 ^ 31 then ((v % 2 ^ 32 : Nat) : Int) else ((v % 2 ^ 32 : Nat) : Int) - 2 ^ 32

/-- The ten characters of decimal notation. -/
def dec_digits : List Char := "0123456789".data

/-- The number a string of decimal digits denotes, most significant digit first. -/
def dec_value (cs : List Char) : Nat := cs.foldl (fun acc c => 10 * acc + (c.toNat - 48)) 0

/-! ## Lemmas on memory -/

theorem load64_eq_zero (m : Mem) (off : Nat) (h : ∀ j, j < 8 → m (off + j) = 0) :
    load64 m off = 0 := by
  have h0 := h 0 (by omega)
  have h1 := h 1 (by omega)
  have h2 := h 2 (by omega)
  have h3 := h 3 (by omega)
  have h4 := h 4 (by omega)
  have h5 := h 5 (by omega)
  have h6 := h 6 (by omega)
  have h7 := h 7 (by omega)
  simp only [Nat.add_zero] at h0
  simp [load64, h0, h1, h2, h3, h4, h5, h6, h7]

theorem load64_congr (m m' : Mem) (off : Nat) (h : ∀ j, j < 8 → m (off + j) = m' (off + j)) :
    load64 m off = load64 m' off := by
  have h0 := h 0 (by omega)
  have h1 := h 1 (by omega)
  have h2 := h 2 (by omega)
  have h3 := h 3 (by omega)
  have h4 := h 4 (by omega)
  have h5 := h 5 (by omega)
  have h6 := h 6 (by omega)
  have h7 := h 7 (by omega)
  simp only [Nat.add_zero] at h0
  simp only [load64, h0, h1, h2, h3, h4, h5, h6, h7]

/-- Guest memory after `setup_page_tables`, byte by byte. -/
theorem setup_page_tables_mem_apply (mem : Mem) (sregs : kvm_sregs) (a : Nat) :
    (setup_page_tables mem sregs).1 a =
      if 0x3000 ≤ a ∧ a < 0x3008 then 0x83 / 256 ^ (a - 0x3000) % 256
      else if 0x2000 ≤ a ∧ a < 0x2008 then 0x3003 / 256 ^ (a - 0x2000) % 256
      else if 0x1000 ≤ a ∧ a < 0x1008 then 0x2003 / 256 ^ (a - 0x1000) % 256
      else mem a := by
  simp only [setup_page_tables, store64]
  rfl

theorem setup_page_tables_mem_other (mem : Mem) (sregs : kvm_sregs) (a : Nat)
    (h1 : ¬ (0x1000 ≤ a ∧ a < 0x1008)) (h2 : ¬ (0x2000 ≤ a ∧ a < 0x2008))
    (h3 : ¬ (0x3000 ≤ a ∧ a < 0x3008)) :
    (setup_page_tables mem sregs).1 a = mem a := by
  rw [setup_page_tables_mem_apply, if_neg h3, if_neg h2, if_neg h1]

theorem pml4_entry0 (mem : Mem) (sregs : kvm_sregs) :
    load64 (setup_page_tables mem sregs).1 0x1000 = 0x2003 := by
  simp [load64, setup_page_tables_mem_apply]

theorem pdpt_entry0 (mem : Mem) (sregs : kvm_sregs) :
    load64 (setup_page_tables mem sregs).1 0x2000 = 0x3003 := by
  simp [load64, setup_page_tables_mem_apply]

theorem pd_entry0 (mem : Mem) (sregs : kvm_sregs) :
    load64 (setup_page_tables mem sregs).1 0x3000 = 0x83 := by
  simp [load64, setup_page_tables_mem_apply]

/-- An 8-byte entry inside the three table pages that is none of the three entries 0 reads
as zero when the pages were zero before the call. -/
theorem table_entry_zero (mem : Mem) (sregs : kvm_sregs)
    (hz : ∀ a, 0x1000 ≤ a → a < 0x4000 → mem a = 0) (off : Nat)
    (hlo : 0x1000 ≤ off) (hhi : off + 8 ≤ 0x4000)
    (h1 : off + 8 ≤ 0x1000 ∨ 0x1008 ≤ off) (h2 : off + 8 ≤ 0x2000 ∨ 0x2008 ≤ off)
    (h3 : off + 8 ≤ 0x3000 ∨ 0x3008 ≤ off) :
    load64 (setup_page_tables mem sregs).1 off = 0 := by
  apply load64_eq_zero
  intro j hj
  rw [setup_page_tables_mem_other mem sregs (off + j) (by omega) (by omega) (by omega)]
  exact hz _ (by omega) (by omega)

/-! ## Page tables -/

/-- C1: when the three table pages `[0x1000, 0x4000)` of guest memory are zero before the
call, then for every `sregs`, after `setup_page_tables(mem, sregs)` entry 0 of the PML4 at
`0x1000` is `0x3 | 0x2000 = 0x2003`, entry 0 of the PDPT at `0x2000` is
`0x3 | 0x3000 = 0x3003`, entry 0 of the PD at `0x3000` is `0x3 | 0x80 | 0 = 0x83`, and
the entries 1..511 of each of the three tables are zero. -/
theorem setup_page_tables_entries (mem : Mem) (sregs : kvm_sregs)
    (hz : ∀ a, 0x1000 ≤ a → a < 0x4000 → mem a = 0) :
    (load64 (setup_page_tables mem sregs).1 (0x1000 + 8 * 0) = 0x2003 ∧ 0x3 ||| 0x2000 = 0x2003)
    ∧ (load64 (setup_page_tables mem sregs).1 (0x2000 + 8 * 0) = 0x3003 ∧ 0x3 ||| 0x3000 = 0x3003)
    ∧ (load64 (setup_page_tables mem sregs).1 (0x3000 + 8 * 0) = 0x83 ∧ 0x3 ||| 0x80 ||| 0 = 0x83)
    ∧ ∀ i, 1 ≤ i → i ≤ 511 →
        load64 (setup_page_tables mem sregs).1 (0x1000 + 8 * i) = 0
        ∧ load64 (setup_page_tables mem sregs).1 (0x2000 + 8 * i) = 0
        ∧ load64 (setup_page_tables mem sregs).1 (0x3000 + 8 * i) = 0 := by
  refine ⟨⟨pml4_entry0 mem sregs, by decide⟩, ⟨pdpt_entry0 mem sregs, by decide⟩,
    ⟨pd_entry0 mem sregs, by decide⟩, ?_⟩
  intro i h1 h2
  refine ⟨?_, ?_, ?_⟩
  · exact table_entry_zero mem sregs hz _ (by omega) (by omega) (by omega) (by omega) (by omega)
  · exact table_entry_zero mem sregs hz _ (by omega) (by omega) (by omega) (by omega) (by omega)
  · exact table_entry_zero mem sregs hz _ (by omega) (by omega) (by omega) (by omega) (by omega)

/-- Witness of C1: zero-filled memory and the reset special registers; the entries 0 and,
for index 511, the last entry of each table. -/
theorem setup_page_tables_entries_witness :
    (∀ a, 0x1000 ≤ a → a < 0x4000 → Mem.zero a = 0)
    ∧ load64 (setup_page_tables Mem.zero sregs_reset).1 0x1000 = 0x2003
    ∧ load64 (setup_page_tables Mem.zero sregs_reset).1 0x2000 = 0x3003
    ∧ load64 (setup_page_tables Mem.zero sregs_reset).1 0x3000 = 0x83
    ∧ load64 (setup_page_tables Mem.zero sregs_reset).1 (0x1000 + 8 * 511) = 0
    ∧ load64 (setup_page_tables Mem.zero sregs_reset).1 (0x2000 + 8 * 511) = 0
    ∧ load64 (setup_page_tables Mem.zero sregs_reset).1 (0x3000 + 8 * 511) = 0 :=
  have h := setup_page_tables_entries Mem.zero sregs_reset (fun _ _ _ => rfl)
  ⟨fun _ _ _ => rfl, h.1.1, h.2.1.1, h.2.2.1.1, h.2.2.2 511 (by decide) (by decide)⟩

/-- Translation of an address below 2 MiB through the installed tables. -/
theorem translate_low (mem : Mem) (sregs : kvm_sregs) (v : Nat) (hv : v < 0x200000) :
    translate (setup_page_tables mem sregs).1 0x1000 v = some (v, true) := by
  have i4 : v / 2 ^ 39 % 512 = 0 := by omega
  have i3 : v / 2 ^ 30 % 512 = 0 := by omega
  have i2 : v / 2 ^ 21 % 512 = 0 := by omega
  have a0 : entry_addr 0x1000 + 8 * 0 = 0x1000 := by decide
  have a4 : entry_addr 0x2003 + 8 * 0 = 0x2000 := by decide
  have a3 : entry_addr 0x3003 + 8 * 0 = 0x3000 := by decide
  have b40 : entry_bit 0x2003 0 = true := by decide
  have b30 : entry_bit 0x3003 0 = true := by decide
  have b37 : entry_bit 0x3003 7 = false := by decide
  have b20 : entry_bit 0x83 0 = true := by decide
  have b27 : entry_bit 0x83 7 = true := by decide
  have b41 : entry_bit 0x2003 1 = true := by decide
  have b31 : entry_bit 0x3003 1 = true := by decide
  have b21 : entry_bit 0x83 1 = true := by decide
  have hm : v % 2 ^ 21 = v := Nat.mod_eq_of_lt (by omega)
  have hb : 0x83 / 2 ^ 21 % 2 ^ 31 * 2 ^ 21 = 0 := by decide
  simp only [translate, i4, i3, i2, a0, pml4_entry0, a4, pdpt_entry0, a3, pd_entry0,
    b40, b30, b37, b20, b27, b41, b31, b21, hm, hb]
  simp

/-- Translation of a canonical address from 2 MiB on through the installed tables. -/
theorem translate_high (mem : Mem) (sregs : kvm_sregs)
    (hz : ∀ a, 0x1000 ≤ a → a < 0x4000 → mem a = 0) (v : Nat) (hc : canonical v)
    (hv : 0x200000 ≤ v) :
    translate (setup_page_tables mem sregs).1 0x1000 v = none := by
  have a0 : entry_addr 0x1000 = 0x1000 := by decide
  have a4 : entry_addr 0x2003 = 0x2000 := by decide
  have a3 : entry_addr 0x3003 = 0x3000 := by decide
  have b40 : entry_bit 0x2003 0 = true := by decide
  have b30 : entry_bit 0x3003 0 = true := by decide
  have b37 : entry_bit 0x3003 7 = false := by decide
  have bz : entry_bit 0 0 = false := by decide
  have l4 : v / 2 ^ 39 % 512 < 512 := Nat.mod_lt _ (by decide)
  have l3 : v / 2 ^ 30 % 512 < 512 := Nat.mod_lt _ (by decide)
  have l2 : v / 2 ^ 21 % 512 < 512 := Nat.mod_lt _ (by decide)
  by_cases i4 : v / 2 ^ 39 % 512 = 0
  · by_cases i3 : v / 2 ^ 30 % 512 = 0
    · have i2 : v / 2 ^ 21 % 512 ≠ 0 := by
        unfold canonical at hc
        omega
      have e2 : load64 (setup_page_tables mem sregs).1 (0x3000 + 8 * (v / 2 ^ 21 % 512)) = 0 :=
        table_entry_zero mem sregs hz _ (by omega) (by omega) (by omega) (by omega) (by omega)
      simp only [translate, a0, i4, Nat.mul_zero, Nat.add_zero, pml4_entry0, b40, a4, i3, pdpt_entry0,
        b30, b37, a3, e2, bz]
      simp
    · have e3 : load64 (setup_page_tables mem sregs).1 (0x2000 + 8 * (v / 2 ^ 30 % 512)) = 0 :=
        table_entry_zero mem sregs hz _ (by omega) (by omega) (by omega) (by omega) (by omega)
      simp only [translate, a0, i4, Nat.mul_zero, Nat.add_zero, pml4_entry0, b40, a4, e3, bz]
      simp
  · have e4 : load64 (setup_page_tables mem sregs).1 (0x1000 + 8 * (v / 2 ^ 39 % 512)) = 0 :=
      table_entry_zero mem sregs hz _ (by omega) (by omega) (by omega) (by omega) (by omega)
    simp only [translate, a0, e4, bz]
    simp

/-- C2: the tables `setup_page_tables` installs into memory whose table pages were zero
form an identity mapping of exactly `[0, 2 MiB)`: by the 4-level walk from the `cr3` the
function programs (`0x1000`), every virtual address below `0x200000` translates to itself
through a chain of present, writable entries, and every canonical virtual address from
`0x200000` on meets an entry that is not present and has no translation. -/
theorem setup_page_tables_identity_map (mem : Mem) (sregs : kvm_sregs)
    (hz : ∀ a, 0x1000 ≤ a → a < 0x4000 → mem a = 0) :
    (setup_page_tables mem sregs).2.cr3 = 0x1000
    ∧ (∀ v, v < 0x200000 →
        translate (setup_page_tables mem sregs).1 (setup_page_tables mem sregs).2.cr3 v
          = some (v, true))
    ∧ (∀ v, canonical v → 0x200000 ≤ v →
        translate (setup_page_tables mem sregs).1 (setup_page_tables mem sregs).2.cr3 v
          = none) := by
  have hcr3 : (setup_page_tables mem sregs).2.cr3 = 0x1000 := rfl
  rw [hcr3]
  exact ⟨rfl, fun v hv => translate_low mem sregs v hv,
    fun v hc hv => translate_high mem sregs hz v hc hv⟩

/-- Witness of C2: zero-filled memory and the reset special registers; the address
`0x1ffff8` maps to itself, the addresses `0x200000` and `0xffff800000000000` do not
translate. -/
theorem setup_page_tables_identity_map_witness :
    (∀ a, 0x1000 ≤ a → a < 0x4000 → Mem.zero a = 0)
    ∧ translate (setup_page_tables Mem.zero sregs_reset).1
        (setup_page_tables Mem.zero sregs_reset).2.cr3 0x1ffff8 = some (0x1ffff8, true)
    ∧ translate (setup_page_tables Mem.zero sregs_reset).1
        (setup_page_tables Mem.zero sregs_reset).2.cr3 0x200000 = none
    ∧ translate (setup_page_tables Mem.zero sregs_reset).1
        (setup_page_tables Mem.zero sregs_reset).2.cr3 0xffff800000000000 = none :=
  have h := setup_page_tables_identity_map Mem.zero sregs_reset (fun _ _ _ => rfl)
  ⟨fun _ _ _ => rfl, h.2.1 0x1ffff8 (by decide),
    h.2.2 0x200000 (Or.inl (by decide)) (by decide),
    h.2.2 0xffff800000000000 (Or.inr ⟨by decide, by decide⟩) (by decide)⟩

/-! ## Rendering of numbers -/

theorem digitChar_hex : ∀ k, k < 16 →
    Nat.digitChar k ∈ hex_digits ∧ hex_digit_value (Nat.digitChar k) = k := by
  decide

theorem toDigitsCore_append (fuel n : Nat) (ds : List Char) :
    Nat.toDigitsCore 16 fuel n ds = Nat.toDigitsCore 16 fuel n [] ++ ds := by
  induction fuel generalizing n ds with
  | zero => simp [Nat.toDigitsCore]
  | succ fuel ih =>
    simp only [Nat.toDigitsCore]
    split
    · simp
    · rw [ih (n / 16) (Nat.digitChar (n % 16) :: ds), ih (n / 16) [Nat.digitChar (n % 16)]]
      simp

theorem toDigitsCore_hex (fuel n : Nat) (hn : n < fuel) :
    (∀ c ∈ Nat.toDigitsCore 16 fuel n [], c ∈ hex_digits)
    ∧ hex_value (Nat.toDigitsCore 16 fuel n []) = n := by
  induction fuel generalizing n with
  | zero => omega
  | succ fuel ih =>
    have hd := digitChar_hex (n % 16) (Nat.mod_lt _ (by decide))
    simp only [Nat.toDigitsCore]
    split
    · refine ⟨?_, ?_⟩
      · intro c hc
        rw [List.mem_singleton] at hc
        rw [hc]; exact hd.1
      · simp only [hex_value, List.foldl, hd.2]
        omega
    · have hlt : n / 16 < fuel := by omega
      have ih' := ih (n / 16) hlt
      rw [toDigitsCore_append]
      refine ⟨?_, ?_⟩
      · intro c hc
        rw [List.mem_append, List.mem_singleton] at hc
        rcases hc with hc | hc
        · exact ih'.1 c hc
        · rw [hc]; exact hd.1
      · have hv := ih'.2
        unfold hex_value at hv ⊢
        rw [List.foldl_append, hv]
        simp only [List.foldl, hd.2]
        omega

/-- The rendering `hex n` is made of lowercase hexadecimal digits and denotes `n`. -/
theorem hex_spec (n : Nat) :
    (∀ c ∈ (hex n).data, c ∈ hex_digits) ∧ hex_value (hex n).data = n :=
  toDigitsCore_hex (n + 1) n (Nat.lt_succ_self n)

/-! ## The run loop -/

theorem putchar_char_of_byte (b : Nat) : putchar (char_of_byte b) = b % 256 := by
  unfold putchar char_of_byte
  split <;> omega

/-- One I/O exit: a byte is written and the loop goes on with the next `KVM_RUN`. -/
theorem run_loop_io (prog : String) (run : kvm_run) (rest : List kvm_run)
    (h : run.exit_reason = KVM_EXIT_IO) :
    run_loop prog (run :: rest) =
      { resumes := (run_loop prog rest).resumes + 1,
        out := data_byte run % 256 :: (run_loop prog rest).out,
        err := (run_loop prog rest).err,
        stop := (run_loop prog rest).stop } := by
  have hne : ¬ run.exit_reason = KVM_EXIT_HLT := by
    rw [h]; decide
  simp only [run_loop, if_neg hne, if_pos h, putchar_char_of_byte]

/-- A run of I/O exits in front of any trace. -/
theorem run_loop_io_append (prog : String) (ios rest : List kvm_run)
    (hio : ∀ r ∈ ios, r.exit_reason = KVM_EXIT_IO) :
    run_loop prog (ios ++ rest) =
      { resumes := ios.length + (run_loop prog rest).resumes,
        out := ios.map (fun r => data_byte r % 256) ++ (run_loop prog rest).out,
        err := (run_loop prog rest).err,
        stop := (run_loop prog rest).stop } := by
  induction ios with
  | nil => simp
  | cons r ios ih =>
    have hr : r.exit_reason = KVM_EXIT_IO := hio r (List.mem_cons_self _ _)
    have ih' := ih (fun x hx => hio x (List.mem_cons_of_mem _ hx))
    rw [List.cons_append, run_loop_io prog r (ios ++ rest) hr, ih']
    simp only [List.length_cons, List.map_cons, List.cons_append]
    congr 1
    omega

theorem map_data_byte_mod (ios : List kvm_run) (hb : ∀ r ∈ ios, data_byte r < 256) :
    ios.map (fun r => data_byte r % 256) = ios.map data_byte := by
  apply List.map_congr_left
  intro r hr
  exact Nat.mod_eq_of_lt (hb r hr)

/-- C3: for every trace that starts with `n` I/O exits (any port, size and direction)
carrying the data bytes `b1..bn` and goes on with a halt exit, the run loop of `kvm`
issues exactly `n + 1` `KVM_RUN` calls, writes exactly `b1..bn` in this order to standard
output, and returns 0. -/
theorem run_loop_io_then_halt (prog : String) (ios : List kvm_run) (hlt : kvm_run)
    (rest : List kvm_run) (hio : ∀ r ∈ ios, r.exit_reason = KVM_EXIT_IO)
    (hb : ∀ r ∈ ios, data_byte r < 256) (hh : hlt.exit_reason = KVM_EXIT_HLT) :
    (run_loop prog (ios ++ hlt :: rest)).resumes = ios.length + 1
    ∧ (run_loop prog (ios ++ hlt :: rest)).out = ios.map data_byte
    ∧ (run_loop prog (ios ++ hlt :: rest)).stop = Stop.returned 0 := by
  have hh' : run_loop prog (hlt :: rest) =
      { resumes := 1, out := [], err := "KVM_EXIT_HLT", stop := Stop.returned 0 } := by
    simp only [run_loop, if_pos hh]
  rw [run_loop_io_append prog ios (hlt :: rest) hio, hh', map_data_byte_mod ios hb]
  simp

/-- Witness of C3: the trace of a single halt gives one `KVM_RUN`, no output and status 0;
the trace of the bytes `41 42 43 44 31 32 33 0a` and a halt gives nine `KVM_RUN`, the
output `ABCD123\n` and status 0. -/
theorem run_loop_io_then_halt_witness :
    ((run_loop "kvm" [halt_exit]).resumes = 1
      ∧ (run_loop "kvm" [halt_exit]).out = []
      ∧ (run_loop "kvm" [halt_exit]).stop = Stop.returned 0)
    ∧ ((run_loop "kvm" (main_io_exits ++ [halt_exit])).resumes = 9
      ∧ (run_loop "kvm" (main_io_exits ++ [halt_exit])).out
          = [0x41, 0x42, 0x43, 0x44, 0x31, 0x32, 0x33, 0x0a]
      ∧ String.mk ((run_loop "kvm" (main_io_exits ++ [halt_exit])).out.map Char.ofNat)
          = "ABCD123\n"
      ∧ (run_loop "kvm" (main_io_exits ++ [halt_exit])).stop = Stop.returned 0) := by
  have h1 := run_loop_io_then_halt "kvm" [] halt_exit [] (by simp) (by simp) rfl
  have h2 := run_loop_io_then_halt "kvm" main_io_exits halt_exit [] (by decide) (by decide) rfl
  refine ⟨h1, h2.1, h2.2.1, ?_, h2.2.2⟩
  rw [h2.2.1]
  decide

theorem errx_line_contains (prog head part : String) :
    contains_text (errx_line prog (head ++ part)) part :=
  ⟨prog ++ ": " ++ head, "\n", by simp [errx_line, String.append_assoc]⟩

theorem run_loop_halt (prog : String) (f : kvm_run) (rest : List kvm_run)
    (hf : f.exit_reason = KVM_EXIT_HLT) :
    run_loop prog (f :: rest) =
      { resumes := 1, out := [], err := "KVM_EXIT_HLT", stop := Stop.returned 0 } := by
  simp only [run_loop, if_pos hf]

theorem run_loop_fail_entry (prog : String) (f : kvm_run) (rest : List kvm_run)
    (hf : f.exit_reason = KVM_EXIT_FAIL_ENTRY) :
    run_loop prog (f :: rest) =
      { resumes := 1, out := [],
        err := errx_line prog
          ("KVM_EXIT_FAIL_ENTRY: hardware_entry_failure_reason = 0x"
            ++ fmt_llx f.fail_entry.hardware_entry_failure_reason),
        stop := Stop.exited 1 } := by
  have h1 : ¬ f.exit_reason = KVM_EXIT_HLT := by rw [hf]; decide
  have h2 : ¬ f.exit_reason = KVM_EXIT_IO := by rw [hf]; decide
  simp only [run_loop, if_neg h1, if_neg h2, if_pos hf]

theorem run_loop_internal_error (prog : String) (f : kvm_run) (rest : List kvm_run)
    (hf : f.exit_reason = KVM_EXIT_INTERNAL_ERROR) :
    run_loop prog (f :: rest) =
      { resumes := 1, out := [],
        err := errx_line prog ("KVM_EXIT_INTERNAL_ERROR: suberror = 0x" ++ fmt_x f.internal.suberror),
        stop := Stop.exited 1 } := by
  have h1 : ¬ f.exit_reason = KVM_EXIT_HLT := by rw [hf]; decide
  have h2 : ¬ f.exit_reason = KVM_EXIT_IO := by rw [hf]; decide
  have h3 : ¬ f.exit_reason = KVM_EXIT_FAIL_ENTRY := by rw [hf]; decide
  simp only [run_loop, if_neg h1, if_neg h2, if_neg h3, if_pos hf]

theorem run_loop_shutdown (prog : String) (f : kvm_run) (rest : List kvm_run)
    (hf : f.exit_reason = KVM_EXIT_SHUTDOWN) :
    run_loop prog (f :: rest) =
      { resumes := 1, out := [], err := errx_line prog "KVM_EXIT_SHUTDOWN",
        stop := Stop.exited 1 } := by
  have h1 : ¬ f.exit_reason = KVM_EXIT_HLT := by rw [hf]; decide
  have h2 : ¬ f.exit_reason = KVM_EXIT_IO := by rw [hf]; decide
  have h3 : ¬ f.exit_reason = KVM_EXIT_FAIL_ENTRY := by rw [hf]; decide
  have h4 : ¬ f.exit_reason = KVM_EXIT_INTERNAL_ERROR := by rw [hf]; decide
  simp only [run_loop, if_neg h1, if_neg h2, if_neg h3, if_neg h4, if_pos hf]

theorem errx_line_eq (prog head tail : String) :
    errx_line prog (head ++ tail) = prog ++ (": " ++ head) ++ tail ++ "\n" := by
  simp only [errx_line, String.append_assoc]

/-- C4: when the first exit that is no I/O exit is an entry failure, an internal error or
a shutdown, the run loop of `kvm` ends by `errx(1, ...)`, process status 1, having issued
no `KVM_RUN` after the one that returned this exit; the line on standard error is the
program name and the message of the exit kind, in which an entry-failure reason or an
internal suberror appears as `0x` and its rendering `hex`, which is made of lowercase
hexadecimal digits and denotes the payload. -/
theorem run_loop_fatal (prog : String) (ios : List kvm_run) (f : kvm_run) (rest : List kvm_run)
    (hio : ∀ r ∈ ios, r.exit_reason = KVM_EXIT_IO)
    (hp : f.fail_entry.hardware_entry_failure_reason < 2 ^ 64)
    (hs : f.internal.suberror < 2 ^ 32)
    (hf : f.exit_reason = KVM_EXIT_FAIL_ENTRY ∨ f.exit_reason = KVM_EXIT_INTERNAL_ERROR
      ∨ f.exit_reason = KVM_EXIT_SHUTDOWN) :
    (run_loop prog (ios ++ f :: rest)).stop = Stop.exited 1
    ∧ (run_loop prog (ios ++ f :: rest)).resumes = ios.length + 1
    ∧ (f.exit_reason = KVM_EXIT_FAIL_ENTRY →
        (run_loop prog (ios ++ f :: rest)).err
          = prog ++ ": KVM_EXIT_FAIL_ENTRY: hardware_entry_failure_reason = 0x"
              ++ hex f.fail_entry.hardware_entry_failure_reason ++ "\n"
        ∧ contains_text (run_loop prog (ios ++ f :: rest)).err
            ("0x" ++ hex f.fail_entry.hardware_entry_failure_reason))
    ∧ (f.exit_reason = KVM_EXIT_INTERNAL_ERROR →
        (run_loop prog (ios ++ f :: rest)).err
          = prog ++ ": KVM_EXIT_INTERNAL_ERROR: suberror = 0x" ++ hex f.internal.suberror ++ "\n"
        ∧ contains_text (run_loop prog (ios ++ f :: rest)).err ("0x" ++ hex f.internal.suberror))
    ∧ (f.exit_reason = KVM_EXIT_SHUTDOWN →
        (run_loop prog (ios ++ f :: rest)).err = prog ++ ": KVM_EXIT_SHUTDOWN" ++ "\n")
    ∧ ((∀ c ∈ (hex f.fail_entry.hardware_entry_failure_reason).data, c ∈ hex_digits)
      ∧ hex_value (hex f.fail_entry.hardware_entry_failure_reason).data
          = f.fail_entry.hardware_entry_failure_reason)
    ∧ ((∀ c ∈ (hex f.internal.suberror).data, c ∈ hex_digits)
      ∧ hex_value (hex f.internal.suberror).data = f.internal.suberror) := by
  rw [run_loop_io_append prog ios (f :: rest) hio]
  have e1 : "KVM_EXIT_FAIL_ENTRY: hardware_entry_failure_reason = 0x"
      = "KVM_EXIT_FAIL_ENTRY: hardware_entry_failure_reason = " ++ "0x" := by decide
  have e2 : "KVM_EXIT_INTERNAL_ERROR: suberror = 0x"
      = "KVM_EXIT_INTERNAL_ERROR: suberror = " ++ "0x" := by decide
  have c1 : ": " ++ "KVM_EXIT_FAIL_ENTRY: hardware_entry_failure_reason = 0x"
      = ": KVM_EXIT_FAIL_ENTRY: hardware_entry_failure_reason = 0x" := by decide
  have c2 : ": " ++ "KVM_EXIT_INTERNAL_ERROR: suberror = 0x"
      = ": KVM_EXIT_INTERNAL_ERROR: suberror = 0x" := by decide
  have c3 : ": " ++ "KVM_EXIT_SHUTDOWN" = ": KVM_EXIT_SHUTDOWN" := by decide
  have m1 : fmt_llx f.fail_entry.hardware_entry_failure_reason
      = hex f.fail_entry.hardware_entry_failure_reason := by
    unfold fmt_llx; rw [Nat.mod_eq_of_lt hp]
  have m2 : fmt_x f.internal.suberror = hex f.internal.suberror := by
    unfold fmt_x; rw [Nat.mod_eq_of_lt hs]
  rcases hf with hf | hf | hf
  · rw [run_loop_fail_entry prog f rest hf, m1]
    refine ⟨rfl, rfl, fun _ => ⟨?_, ?_⟩, fun h => ?_, fun h => ?_, hex_spec _, hex_spec _⟩
    · show errx_line prog _ = _
      rw [errx_line_eq, c1]
    · show contains_text (errx_line prog _) _
      rw [e1, String.append_assoc]
      exact errx_line_contains _ _ _
    · rw [hf] at h; exact absurd h (by decide)
    · rw [hf] at h; exact absurd h (by decide)
  · rw [run_loop_internal_error prog f rest hf, m2]
    refine ⟨rfl, rfl, fun h => ?_, fun _ => ⟨?_, ?_⟩, fun h => ?_, hex_spec _, hex_spec _⟩
    · rw [hf] at h; exact absurd h (by decide)
    · show errx_line prog _ = _
      rw [errx_line_eq, c2]
    · show contains_text (errx_line prog _) _
      rw [e2, String.append_assoc]
      exact errx_line_contains _ _ _
    · rw [hf] at h; exact absurd h (by decide)
  · rw [run_loop_shutdown prog f rest hf]
    refine ⟨rfl, rfl, fun h => ?_, fun h => ?_, fun _ => ?_, hex_spec _, hex_spec _⟩
    · rw [hf] at h; exact absurd h (by decide)
    · rw [hf] at h; exact absurd h (by decide)
    · show errx_line prog _ = _
      unfold errx_line
      rw [String.append_assoc prog, c3]

/-- Witness of C4: one I/O exit, then an entry failure with reason `0x7`, then a halt that
is never reached. -/
theorem run_loop_fatal_witness :
    (run_loop "kvm" ([io_exit KVM_EXIT_IO_OUT 0x217 0x41]
        ++ plain_exit KVM_EXIT_FAIL_ENTRY 0x7 0 :: [halt_exit])).stop = Stop.exited 1
    ∧ (run_loop "kvm" ([io_exit KVM_EXIT_IO_OUT 0x217 0x41]
        ++ plain_exit KVM_EXIT_FAIL_ENTRY 0x7 0 :: [halt_exit])).resumes = 2
    ∧ (run_loop "kvm" ([io_exit KVM_EXIT_IO_OUT 0x217 0x41]
        ++ plain_exit KVM_EXIT_FAIL_ENTRY 0x7 0 :: [halt_exit])).err
        = "kvm: KVM_EXIT_FAIL_ENTRY: hardware_entry_failure_reason = 0x7\n"
    ∧ contains_text (run_loop "kvm" ([io_exit KVM_EXIT_IO_OUT 0x217 0x41]
        ++ plain_exit KVM_EXIT_FAIL_ENTRY 0x7 0 :: [halt_exit])).err "0x7" :=
  have h := run_loop_fatal "kvm" [io_exit KVM_EXIT_IO_OUT 0x217 0x41]
    (plain_exit KVM_EXIT_FAIL_ENTRY 0x7 0) [halt_exit] (by decide) (by decide) (by decide)
    (Or.inl rfl)
  ⟨h.1, h.2.1, (h.2.2.1 rfl).1, (h.2.2.1 rfl).2⟩

/-- Counterexample to C9: an I/O exit of direction `in` carrying the byte `0x41`, then a
halt. The loop writes `0x41` to standard output, issues a second `KVM_RUN` and returns 0;
it does not end by `errx`. -/
theorem run_loop_in_direction_counterexample :
    (io_exit KVM_EXIT_IO_IN 0x217 0x41).io.direction = KVM_EXIT_IO_IN
    ∧ run_loop "kvm" [io_exit KVM_EXIT_IO_IN 0x217 0x41, halt_exit]
        = { resumes := 2, out := [0x41], err := "KVM_EXIT_HLT", stop := Stop.returned 0 }
    ∧ (run_loop "kvm" [io_exit KVM_EXIT_IO_IN 0x217 0x41, halt_exit]).stop ≠ Stop.exited 1
    ∧ (run_loop "kvm" [io_exit KVM_EXIT_IO_IN 0x217 0x41, halt_exit]).out ≠ [] := by
  decide

/-- C9 as amended: an I/O exit of either direction, `in` or `out`, and of any port and
size, makes the run loop of `kvm` write the byte at `run + io.data_offset` to standard
output and go on with the next `KVM_RUN`; the field `io.direction` has no influence on
what the loop does. -/
theorem run_loop_io_any_direction (prog : String) (run : kvm_run) (rest : List kvm_run)
    (h : run.exit_reason = KVM_EXIT_IO) :
    (run_loop prog (run :: rest)).resumes = (run_loop prog rest).resumes + 1
    ∧ (run_loop prog (run :: rest)).out = data_byte run % 256 :: (run_loop prog rest).out
    ∧ (run_loop prog (run :: rest)).err = (run_loop prog rest).err
    ∧ (run_loop prog (run :: rest)).stop = (run_loop prog rest).stop
    ∧ ∀ d, run_loop prog ({ run with io := { run.io with direction := d } } :: rest)
        = run_loop prog (run :: rest) := by
  rw [run_loop_io prog run rest h]
  exact ⟨rfl, rfl, rfl, rfl, fun d =>
    run_loop_io prog { run with io := { run.io with direction := d } } rest h⟩

/-- Witness of C9 as amended: an `in` exit with the byte `0x41` in front of a halt. -/
theorem run_loop_io_any_direction_witness :
    (io_exit KVM_EXIT_IO_IN 0x217 0x41).exit_reason = KVM_EXIT_IO
    ∧ (run_loop "kvm" (io_exit KVM_EXIT_IO_IN 0x217 0x41 :: [halt_exit])).resumes = 2
    ∧ (run_loop "kvm" (io_exit KVM_EXIT_IO_IN 0x217 0x41 :: [halt_exit])).out = [0x41]
    ∧ (run_loop "kvm" (io_exit KVM_EXIT_IO_IN 0x217 0x41 :: [halt_exit])).stop
        = Stop.returned 0 :=
  have h := run_loop_io_any_direction "kvm" (io_exit KVM_EXIT_IO_IN 0x217 0x41) [halt_exit] rfl
  ⟨rfl, h.1, h.2.1, h.2.2.2.1⟩

/-! ## Control and segment registers -/

/-- C6: for every prior `sregs` (and every memory), after `setup_page_tables` the fields
`cr3`, `cr4`, `efer` and `cr0` hold fixed values that do not depend on the prior
contents: `cr3 = 0x1000` (the PML4 address), `cr4 = 0x620` (bits 5, 9 and 10),
`efer = 0x500` (bits 8 and 10) and `cr0 = 0x0000000080050033` as a 64-bit value (bits 0,
5, 16, 18 and 31 set, the upper 32 bits zero). -/
theorem setup_page_tables_control (mem : Mem) (sregs : kvm_sregs) :
    (setup_page_tables mem sregs).2.cr3 = 0x1000
    ∧ (setup_page_tables mem sregs).2.cr4 = 0x620
    ∧ (setup_page_tables mem sregs).2.efer = 0x500
    ∧ (setup_page_tables mem sregs).2.cr0 = 0x0000000080050033
    ∧ ((setup_page_tables mem sregs).2.cr4.testBit 5 = true
      ∧ (setup_page_tables mem sregs).2.cr4.testBit 9 = true
      ∧ (setup_page_tables mem sregs).2.cr4.testBit 10 = true)
    ∧ ((setup_page_tables mem sregs).2.efer.testBit 8 = true
      ∧ (setup_page_tables mem sregs).2.efer.testBit 10 = true)
    ∧ ((setup_page_tables mem sregs).2.cr0.testBit 0 = true
      ∧ (setup_page_tables mem sregs).2.cr0.testBit 5 = true
      ∧ (setup_page_tables mem sregs).2.cr0.testBit 16 = true
      ∧ (setup_page_tables mem sregs).2.cr0.testBit 18 = true
      ∧ (setup_page_tables mem sregs).2.cr0.testBit 31 = true
      ∧ (setup_page_tables mem sregs).2.cr0 / 2 ^ 32 = 0)
    ∧ ∀ (mem' : Mem) (sregs' : kvm_sregs),
        (setup_page_tables mem' sregs').2.cr3 = (setup_page_tables mem sregs).2.cr3
        ∧ (setup_page_tables mem' sregs').2.cr4 = (setup_page_tables mem sregs).2.cr4
        ∧ (setup_page_tables mem' sregs').2.efer = (setup_page_tables mem sregs).2.efer
        ∧ (setup_page_tables mem' sregs').2.cr0 = (setup_page_tables mem sregs).2.cr0 := by
  have h3 : ∀ (m : Mem) (s : kvm_sregs), (setup_page_tables m s).2.cr3 = 0x1000 :=
    fun _ _ => rfl
  have h4 : ∀ (m : Mem) (s : kvm_sregs), (setup_page_tables m s).2.cr4 = 0x620 := by
    intro m s
    show (1 <<< 5 ||| 0x600 : Nat) = 0x620
    decide
  have he : ∀ (m : Mem) (s : kvm_sregs), (setup_page_tables m s).2.efer = 0x500 :=
    fun _ _ => rfl
  have h0 : ∀ (m : Mem) (s : kvm_sregs), (setup_page_tables m s).2.cr0 = 0x80050033 := by
    intro m s
    show (0x80050033 % 2 ^ 64 : Nat) = 0x80050033
    decide
  refine ⟨h3 _ _, h4 _ _, he _ _, h0 _ _, ?_, ?_, ?_, fun m' s' => ?_⟩
  · rw [h4]; decide
  · rw [he]; decide
  · rw [h0]; decide
  · rw [h3, h3, h4, h4, he, he, h0, h0]
    exact ⟨rfl, rfl, rfl, rfl⟩

/-- C8: for every prior `sregs`, after `setup_segment_registers` the code segment `cs` has
base 0, limit `0xffffffff`, selector 8 (descriptor index 1), present 1, type 11, dpl 0,
s 1, l 1, g 1, db 0 and every other field 0, and `ds`, `es`, `fs`, `gs` and `ss` all equal
one data segment that is `cs` with type 3 and selector 16 (descriptor index 2). -/
theorem setup_segment_registers_segments (sregs : kvm_sregs) :
    (setup_segment_registers sregs).cs = code_segment
    ∧ code_segment.selector / 8 = 1
    ∧ (setup_segment_registers sregs).ds = { code_segment with type := 3, selector := 16 }
    ∧ (setup_segment_registers sregs).es = { code_segment with type := 3, selector := 16 }
    ∧ (setup_segment_registers sregs).fs = { code_segment with type := 3, selector := 16 }
    ∧ (setup_segment_registers sregs).gs = { code_segment with type := 3, selector := 16 }
    ∧ (setup_segment_registers sregs).ss = { code_segment with type := 3, selector := 16 }
    ∧ (setup_segment_registers sregs).ds.selector / 8 = 2 :=
  ⟨rfl, rfl, rfl, rfl, rfl, rfl, rfl, by show (2 <<< 3 : Nat) / 8 = 2; decide⟩

/-! ## The setup sequence of `kvm` -/

theorem set_regs_args_append (xs ys : List Call) :
    set_regs_args (xs ++ ys) = set_regs_args xs ++ set_regs_args ys := by
  induction xs with
  | nil => rfl
  | cons c xs ih => cases c <;> simp [set_regs_args, ih]

theorem set_regs_args_replicate_run (n : Nat) (fd : Int) :
    set_regs_args (List.replicate n (Call.run fd)) = [] := by
  induction n with
  | zero => rfl
  | succ n ih => simp [List.replicate_succ, set_regs_args, ih]

theorem run_count_append (xs ys : List Call) :
    run_count (xs ++ ys) = run_count xs + run_count ys := by
  induction xs with
  | nil => simp [run_count]
  | cons c xs ih =>
    cases c
    all_goals simp [run_count, ih]
    all_goals omega

theorem run_count_replicate_run (n : Nat) (fd : Int) :
    run_count (List.replicate n (Call.run fd)) = n := by
  induction n with
  | zero => rfl
  | succ n ih => simp [List.replicate_succ, run_count, ih]

theorem run_loop_resumes_pos (prog : String) (exits : List kvm_run) :
    1 ≤ (run_loop prog exits).resumes := by
  induction exits with
  | nil => simp [run_loop]
  | cons r rest ih =>
    simp only [run_loop]
    split_ifs <;> simp

theorem kvm_loop_resumes_pos (prog : String) (host : Host) :
    1 ≤ (kvm_loop prog host).resumes := by
  unfold kvm_loop
  split
  · exact run_loop_resumes_pos prog host.exits
  · simp

/-- The calls of `kvm`: the eleven setup calls, then the `KVM_RUN` calls of the loop. -/
theorem kvm_calls (prog : String) (code : List Nat) (host : Host) :
    (kvm prog code host).calls =
      [Call.open_kvm, Call.create_vm host.open_ret, Call.mmap_mem 0x40000000,
        Call.set_user_memory_region host.create_vm_ret
          { slot := 0, flags := 0, guest_phys_addr := 0, memory_size := 0x40000000,
            userspace_addr := host.mem_addr },
        Call.create_vcpu host.create_vm_ret,
        Call.get_vcpu_mmap_size host.open_ret,
        Call.mmap_run (host.get_vcpu_mmap_size_ret % 2 ^ 64).toNat host.create_vcpu_ret,
        Call.get_regs host.create_vcpu_ret,
        Call.set_regs host.create_vcpu_ret
          { host.get_regs with rip := 0, rsp := 0x200000, rflags := 0x2 },
        Call.get_sregs host.create_vcpu_ret,
        Call.set_sregs host.create_vcpu_ret
          (setup_segment_registers (setup_page_tables (memcpy Mem.zero 0 code) host.get_sregs).2)]
        ++ List.replicate (kvm_loop prog host).resumes (Call.run host.create_vcpu_ret) :=
  rfl

theorem kvm_mem (prog : String) (code : List Nat) (host : Host) :
    (kvm prog code host).mem = (setup_page_tables (memcpy Mem.zero 0 code) host.get_sregs).1 :=
  rfl

theorem region_args_append (xs ys : List Call) :
    region_args (xs ++ ys) = region_args xs ++ region_args ys := by
  induction xs with
  | nil => rfl
  | cons c xs ih => cases c <;> simp [region_args, ih]

theorem region_args_replicate_run (n : Nat) (fd : Int) :
    region_args (List.replicate n (Call.run fd)) = [] := by
  induction n with
  | zero => rfl
  | succ n ih => simp [List.replicate_succ, region_args, ih]

theorem kvm_region_args (prog : String) (code : List Nat) (host : Host) :
    region_args (kvm prog code host).calls =
      [{ slot := 0, flags := 0, guest_phys_addr := 0, memory_size := 0x40000000,
         userspace_addr := host.mem_addr }] := by
  rw [kvm_calls, region_args_append, region_args_replicate_run]
  rfl

/-- Counterexample to C7: `KVM_GET_REGS` returns the reset state, in which `rdx = 0x600`;
the struct `kvm` passes to `KVM_SET_REGS` still has `rdx = 0x600`, not zero. -/
theorem kvm_set_regs_counterexample :
    host_ok.get_regs.rdx = 0x600
    ∧ (set_regs_args (kvm "kvm" main_code host_ok).calls).map (fun r => r.rdx) = [0x600]
    ∧ ¬ (∀ r ∈ set_regs_args (kvm "kvm" main_code host_ok).calls, r.rdx = 0) := by
  decide

/-- C7 as amended: `kvm` issues `KVM_SET_REGS` once, and the struct it passes has
`rip = 0`, `rsp = 0x200000`, `rflags = 0x2` (bit 1 set, no other bit), while every other
general register (`rax`, `rbx`, `rcx`, `rdx`, `rsi`, `rdi`, `rbp`, `r8`..`r15`) keeps the
value the preceding `KVM_GET_REGS` returned, whatever that state is. -/
theorem kvm_set_regs (prog : String) (code : List Nat) (host : Host) :
    ∃ r, set_regs_args (kvm prog code host).calls = [r]
      ∧ r.rip = 0 ∧ r.rsp = 0x200000 ∧ r.rflags = 0x2 ∧ r.rflags.testBit 1 = true
      ∧ r.rax = host.get_regs.rax ∧ r.rbx = host.get_regs.rbx ∧ r.rcx = host.get_regs.rcx
      ∧ r.rdx = host.get_regs.rdx ∧ r.rsi = host.get_regs.rsi ∧ r.rdi = host.get_regs.rdi
      ∧ r.rbp = host.get_regs.rbp ∧ r.r8 = host.get_regs.r8 ∧ r.r9 = host.get_regs.r9
      ∧ r.r10 = host.get_regs.r10 ∧ r.r11 = host.get_regs.r11 ∧ r.r12 = host.get_regs.r12
      ∧ r.r13 = host.get_regs.r13 ∧ r.r14 = host.get_regs.r14 ∧ r.r15 = host.get_regs.r15 := by
  refine ⟨{ host.get_regs with rip := 0, rsp := 0x200000, rflags := 0x2 }, ?_, rfl, rfl, rfl,
    by show Nat.testBit 0x2 1 = true; decide, rfl, rfl, rfl, rfl, rfl, rfl, rfl, rfl, rfl, rfl, rfl, rfl, rfl, rfl, rfl⟩
  rw [kvm_calls, set_regs_args_append, set_regs_args_replicate_run]
  rfl

/-! ## Loading the code -/

/-- Counterexample to C5: for the code buffer of `0x1010` bytes made of the code of `main`
and `nop` bytes, `kvm` goes through to `KVM_RUN` and returns 0 on the trace of `host_ok`;
the buffer byte at offset `0x1008` is in guest memory beyond `0x1000`, and the bytes at
`0x1000..0x1007` hold the PML4 entry `0x2003` instead of the code. -/
theorem kvm_long_code_counterexample :
    0x1000 ≤ long_code.length
    ∧ (kvm "kvm" long_code host_ok).mem 0x1008 = 0x90
    ∧ (kvm "kvm" long_code host_ok).mem 0x1000 = 0x03
    ∧ load64 (kvm "kvm" long_code host_ok).mem 0x1000 = 0x2003
    ∧ run_count (kvm "kvm" long_code host_ok).calls = 9
    ∧ (kvm "kvm" long_code host_ok).stop = Stop.returned 0 := by
  have hl : long_code.length = 0x1010 := by
    rw [long_code, List.length_append, List.length_replicate]
    rfl
  refine ⟨by rw [hl]; decide, ?_, ?_, by rw [kvm_mem]; exact pml4_entry0 _ _, ?_, ?_⟩
  · rw [kvm_mem, setup_page_tables_mem_other _ _ _ (by decide) (by decide) (by decide)]
    show (if 0 ≤ 0x1008 ∧ 0x1008 < 0 + long_code.length then long_code.getD (0x1008 - 0) 0
      else Mem.zero 0x1008) = 0x90
    rw [hl, if_pos (by decide), long_code, List.getD_eq_getElem?_getD,
      List.getElem?_append_right (by decide), List.getElem?_replicate]
    simp [main_code]
  · rw [kvm_mem, setup_page_tables_mem_apply]
    decide
  · rw [kvm_calls, run_count_append, run_count_replicate_run]
    decide
  · decide

theorem memcpy_apply_lt (m : Mem) (src : List Nat) (a : Nat) (h : a < src.length) :
    memcpy m 0 src a = src.get ⟨a, h⟩ := by
  unfold memcpy
  rw [if_pos ⟨Nat.zero_le _, by omega⟩, Nat.sub_zero, List.getD_eq_getElem _ _ h]
  rfl

/-- C5 as amended: `kvm` has no check of the code length and rejects no buffer. For every
code buffer that fits the guest memory, also one of length `0x1000` or more, all its bytes
are copied to the guest offsets `[0, code_len)`, the page tables are then installed over
them, and the run goes on to `KVM_RUN` as for any other buffer: afterwards every code
byte outside the three 8-byte entries at `0x1000`, `0x2000` and `0x3000` is in guest
memory as supplied, those three entries hold the table entries, and a buffer of at most
`0x1000` bytes is in guest memory in full. -/
theorem kvm_loads_code_unchecked (prog : String) (code : List Nat) (host : Host)
    (hfit : code.length ≤ 0x40000000) :
    (∀ a (h : a < code.length), ¬ (0x1000 ≤ a ∧ a < 0x1008) → ¬ (0x2000 ≤ a ∧ a < 0x2008) →
        ¬ (0x3000 ≤ a ∧ a < 0x3008) → (kvm prog code host).mem a = code.get ⟨a, h⟩)
    ∧ (code.length ≤ 0x1000 →
        ∀ a (h : a < code.length), (kvm prog code host).mem a = code.get ⟨a, h⟩)
    ∧ load64 (kvm prog code host).mem 0x1000 = 0x2003
    ∧ load64 (kvm prog code host).mem 0x2000 = 0x3003
    ∧ load64 (kvm prog code host).mem 0x3000 = 0x83
    ∧ 1 ≤ run_count (kvm prog code host).calls
    ∧ ∀ code' : List Nat,
        run_count (kvm prog code' host).calls = run_count (kvm prog code host).calls
        ∧ (kvm prog code' host).out = (kvm prog code host).out
        ∧ (kvm prog code' host).err = (kvm prog code host).err
        ∧ (kvm prog code' host).stop = (kvm prog code host).stop := by
  have hmem : ∀ a (h : a < code.length), ¬ (0x1000 ≤ a ∧ a < 0x1008) →
      ¬ (0x2000 ≤ a ∧ a < 0x2008) → ¬ (0x3000 ≤ a ∧ a < 0x3008) →
      (kvm prog code host).mem a = code.get ⟨a, h⟩ := by
    intro a h h1 h2 h3
    rw [kvm_mem, setup_page_tables_mem_other _ _ _ h1 h2 h3]
    exact memcpy_apply_lt _ _ _ h
  refine ⟨hmem, fun hle a h => hmem a h (by omega) (by omega) (by omega), ?_, ?_, ?_, ?_, ?_⟩
  · rw [kvm_mem]; exact pml4_entry0 _ _
  · rw [kvm_mem]; exact pdpt_entry0 _ _
  · rw [kvm_mem]; exact pd_entry0 _ _
  · rw [kvm_calls, run_count_append, run_count_replicate_run]
    have := kvm_loop_resumes_pos prog host
    omega
  · intro code'
    refine ⟨?_, rfl, rfl, rfl⟩
    rw [kvm_calls, kvm_calls, run_count_append, run_count_append]
    rfl

/-- Witness of C5 as amended: the 27 bytes of `main` are in guest memory in full, first
byte `0x48`, last instruction byte `0xf4`; the PML4 entry is in place and `KVM_RUN` is
issued. -/
theorem kvm_loads_code_unchecked_witness :
    main_code.length ≤ 0x40000000
    ∧ (kvm "kvm" main_code host_ok).mem 0 = 0x48
    ∧ (kvm "kvm" main_code host_ok).mem 25 = 0xf4
    ∧ load64 (kvm "kvm" main_code host_ok).mem 0x1000 = 0x2003
    ∧ 1 ≤ run_count (kvm "kvm" main_code host_ok).calls :=
  have h := kvm_loads_code_unchecked "kvm" main_code host_ok (by decide)
  ⟨by decide, h.2.1 (by decide) 0 (by decide), h.2.1 (by decide) 25 (by decide),
    h.2.2.1, h.2.2.2.2.2.1⟩

/-! ## Failing setup steps -/

/-- An exit whose reason is none of the five the switch names ends the loop by `errx` with
the reason rendered by `%d`. -/
theorem run_loop_unhandled (prog : String) (f : kvm_run) (rest : List kvm_run)
    (h1 : f.exit_reason ≠ KVM_EXIT_HLT) (h2 : f.exit_reason ≠ KVM_EXIT_IO)
    (h3 : f.exit_reason ≠ KVM_EXIT_FAIL_ENTRY) (h4 : f.exit_reason ≠ KVM_EXIT_INTERNAL_ERROR)
    (h5 : f.exit_reason ≠ KVM_EXIT_SHUTDOWN) :
    run_loop prog (f :: rest) =
      { resumes := 1, out := [],
        err := errx_line prog ("Unhandled reason: " ++ fmt_d f.exit_reason),
        stop := Stop.exited 1 } := by
  simp only [run_loop, if_neg h1, if_neg h2, if_neg h3, if_neg h4, if_neg h5]

theorem fmt_d_eq (v : Nat) : fmt_d v = toString (int_of_u32 v) := rfl

/-- Below `2 ^ 31` the rendering by `%d` is the decimal rendering of the code itself. -/
theorem fmt_d_small (r : Nat) (h : r < 2 ^ 31) : fmt_d r = toString r := by
  have hm : r % 2 ^ 32 = r := Nat.mod_eq_of_lt (by omega)
  unfold fmt_d
  rw [hm, if_pos h]
  rfl

/-- From `2 ^ 31` on the rendering by `%d` is a minus sign and the decimal rendering of
`2 ^ 32 - r`. -/
theorem fmt_d_large (r : Nat) (h1 : 2 ^ 31 ≤ r) (h2 : r < 2 ^ 32) :
    fmt_d r = "-" ++ toString (2 ^ 32 - r) := by
  have hm : r % 2 ^ 32 = r := Nat.mod_eq_of_lt h2
  have hi : ((r : Nat) : Int) - 2 ^ 32 = Int.negSucc (2 ^ 32 - r - 1) := by
    rw [Int.negSucc_eq]
    omega
  have hs : 2 ^ 32 - r - 1 + 1 = 2 ^ 32 - r := by omega
  unfold fmt_d
  rw [hm, if_neg (by omega), hi]
  show "-" ++ toString (Nat.succ (2 ^ 32 - r - 1)) = _
  rw [Nat.succ_eq_add_one, hs]

/-- Counterexample to C11: the exit reason `0x80000000` is a 32-bit unsigned code and none
of the five handled ones; the run loop ends by `errx(1, ...)` after one `KVM_RUN`, and
the number in the diagnostic is `-2147483648`: the line is not the one that shows
`2147483648`. -/
theorem run_loop_unhandled_reason_sign :
    (plain_exit 0x80000000 0 0).exit_reason = 2147483648
    ∧ (plain_exit 0x80000000 0 0).exit_reason < 2 ^ 32
    ∧ run_loop "kvm" [plain_exit 0x80000000 0 0]
        = { resumes := 1, out := [], err := "kvm: Unhandled reason: -2147483648\n",
            stop := Stop.exited 1 }
    ∧ (run_loop "kvm" [plain_exit 0x80000000 0 0]).err
        ≠ "kvm: Unhandled reason: 2147483648\n" := by
  decide

/-- The diagnostic for an unhandled 32-bit exit reason `r`: the decimal digits of `r` below
`2 ^ 31`, a minus sign and the decimal digits of `2 ^ 32 - r` from `2 ^ 31` on. -/
theorem run_loop_unhandled_diag (prog : String) (f : kvm_run) (rest : List kvm_run)
    (h1 : f.exit_reason ≠ KVM_EXIT_HLT) (h2 : f.exit_reason ≠ KVM_EXIT_IO)
    (h3 : f.exit_reason ≠ KVM_EXIT_FAIL_ENTRY) (h4 : f.exit_reason ≠ KVM_EXIT_INTERNAL_ERROR)
    (h5 : f.exit_reason ≠ KVM_EXIT_SHUTDOWN) (hr : f.exit_reason < 2 ^ 32) :
    (run_loop prog (f :: rest)).stop = Stop.exited 1
    ∧ (run_loop prog (f :: rest)).resumes = 1
    ∧ (f.exit_reason < 2 ^ 31 →
        (run_loop prog (f :: rest)).err
          = errx_line prog ("Unhandled reason: " ++ toString f.exit_reason))
    ∧ (2 ^ 31 ≤ f.exit_reason →
        (run_loop prog (f :: rest)).err
          = errx_line prog ("Unhandled reason: " ++ ("-" ++ toString (2 ^ 32 - f.exit_reason)))) := by
  rw [run_loop_unhandled prog f rest h1 h2 h3 h4 h5]
  refine ⟨rfl, rfl, fun h => ?_, fun h => ?_⟩
  · show errx_line prog _ = _
    rw [fmt_d_small _ h]
  · show errx_line prog _ = _
    rw [fmt_d_large _ h hr]

theorem digitChar_dec : ∀ k, k < 10 →
    Nat.digitChar k ∈ dec_digits ∧ (Nat.digitChar k).toNat - 48 = k := by
  decide

theorem toDigitsCore_ten_append (fuel n : Nat) (ds : List Char) :
    Nat.toDigitsCore 10 fuel n ds = Nat.toDigitsCore 10 fuel n [] ++ ds := by
  induction fuel generalizing n ds with
  | zero => simp [Nat.toDigitsCore]
  | succ fuel ih =>
    simp only [Nat.toDigitsCore]
    split
    · simp
    · rw [ih (n / 10) (Nat.digitChar (n % 10) :: ds), ih (n / 10) [Nat.digitChar (n % 10)]]
      simp

theorem toDigitsCore_dec (fuel n : Nat) (hn : n < fuel) :
    (∀ c ∈ Nat.toDigitsCore 10 fuel n [], c ∈ dec_digits)
    ∧ dec_value (Nat.toDigitsCore 10 fuel n []) = n := by
  induction fuel generalizing n with
  | zero => omega
  | succ fuel ih =>
    have hd := digitChar_dec (n % 10) (Nat.mod_lt _ (by decide))
    simp only [Nat.toDigitsCore]
    split
    · refine ⟨?_, ?_⟩
      · intro c hc
        rw [List.mem_singleton] at hc
        rw [hc]; exact hd.1
      · simp only [dec_value, List.foldl, hd.2]
        omega
    · have hlt : n / 10 < fuel := by omega
      have ih' := ih (n / 10) hlt
      rw [toDigitsCore_ten_append]
      refine ⟨?_, ?_⟩
      · intro c hc
        rw [List.mem_append, List.mem_singleton] at hc
        rcases hc with hc | hc
        · exact ih'.1 c hc
        · rw [hc]; exact hd.1
      · have hv := ih'.2
        unfold dec_value at hv ⊢
        rw [List.foldl_append, hv]
        simp only [List.foldl, hd.2]
        omega

/-- The decimal rendering of `n` is made of decimal digits and denotes `n`. -/
theorem dec_spec (n : Nat) :
    (∀ c ∈ (toString n).data, c ∈ dec_digits) ∧ dec_value (toString n).data = n :=
  toDigitsCore_dec (n + 1) n (Nat.lt_succ_self n)

/-- C11 as amended: for every 32-bit unsigned exit reason `r` that is none of
`KVM_EXIT_HLT`, `KVM_EXIT_IO`, `KVM_EXIT_FAIL_ENTRY`, `KVM_EXIT_INTERNAL_ERROR` and
`KVM_EXIT_SHUTDOWN`, met after any run of I/O exits, the run loop of `kvm` ends by
`errx(1, ...)`, process status 1, with no further `KVM_RUN`; when `r < 2 ^ 31`, which
holds for every exit reason of the header, the diagnostic is the program name and
`Unhandled reason: ` followed by the decimal digits of `r`, which denote exactly `r`. -/
theorem run_loop_unhandled_reason (prog : String) (ios : List kvm_run) (f : kvm_run)
    (rest : List kvm_run) (hio : ∀ r ∈ ios, r.exit_reason = KVM_EXIT_IO)
    (h1 : f.exit_reason ≠ KVM_EXIT_HLT) (h2 : f.exit_reason ≠ KVM_EXIT_IO)
    (h3 : f.exit_reason ≠ KVM_EXIT_FAIL_ENTRY) (h4 : f.exit_reason ≠ KVM_EXIT_INTERNAL_ERROR)
    (h5 : f.exit_reason ≠ KVM_EXIT_SHUTDOWN) (hr : f.exit_reason < 2 ^ 32) :
    (run_loop prog (ios ++ f :: rest)).stop = Stop.exited 1
    ∧ (run_loop prog (ios ++ f :: rest)).resumes = ios.length + 1
    ∧ (f.exit_reason < 2 ^ 31 →
        (run_loop prog (ios ++ f :: rest)).err
          = prog ++ ": Unhandled reason: " ++ toString f.exit_reason ++ "\n"
        ∧ (∀ c ∈ (toString f.exit_reason).data, c ∈ dec_digits)
        ∧ dec_value (toString f.exit_reason).data = f.exit_reason) := by
  have hr' : f.exit_reason % 2 ^ 32 = f.exit_reason := Nat.mod_eq_of_lt hr
  have c1 : ": " ++ "Unhandled reason: " = ": Unhandled reason: " := by decide
  rw [run_loop_io_append prog ios (f :: rest) hio, run_loop_unhandled prog f rest h1 h2 h3 h4 h5]
  refine ⟨rfl, rfl, fun h => ⟨?_, (dec_spec _).1, (dec_spec _).2⟩⟩
  show errx_line prog _ = _
  rw [fmt_d_small _ h, errx_line_eq, c1]

/-- Witness of C11 as amended: the exit reason 6 (`KVM_EXIT_MMIO`) after one I/O exit. -/
theorem run_loop_unhandled_reason_witness :
    (run_loop "kvm" ([io_exit KVM_EXIT_IO_OUT 0x217 0x41] ++ plain_exit 6 0 0 :: [halt_exit])).stop
        = Stop.exited 1
    ∧ (run_loop "kvm" ([io_exit KVM_EXIT_IO_OUT 0x217 0x41]
        ++ plain_exit 6 0 0 :: [halt_exit])).resumes = 2
    ∧ (run_loop "kvm" ([io_exit KVM_EXIT_IO_OUT 0x217 0x41]
        ++ plain_exit 6 0 0 :: [halt_exit])).err = "kvm: Unhandled reason: 6\n" :=
  have h := run_loop_unhandled_reason "kvm" [io_exit KVM_EXIT_IO_OUT 0x217 0x41]
    (plain_exit 6 0 0) [halt_exit] (by decide) (by decide) (by decide) (by decide) (by decide)
    (by decide) (by decide)
  ⟨h.1, h.2.1, (h.2.2 (by decide)).1⟩

/-! ## The memory region -/

theorem mmap_mem_args_append (xs ys : List Call) :
    mmap_mem_args (xs ++ ys) = mmap_mem_args xs ++ mmap_mem_args ys := by
  induction xs with
  | nil => rfl
  | cons c xs ih => cases c <;> simp [mmap_mem_args, ih]

theorem mmap_mem_args_replicate_run (n : Nat) (fd : Int) :
    mmap_mem_args (List.replicate n (Call.run fd)) = [] := by
  induction n with
  | zero => rfl
  | succ n ih => simp [List.replicate_succ, mmap_mem_args, ih]

theorem set_sregs_args_append (xs ys : List Call) :
    set_sregs_args (xs ++ ys) = set_sregs_args xs ++ set_sregs_args ys := by
  induction xs with
  | nil => rfl
  | cons c xs ih => cases c <;> simp [set_sregs_args, ih]

theorem set_sregs_args_replicate_run (n : Nat) (fd : Int) :
    set_sregs_args (List.replicate n (Call.run fd)) = [] := by
  induction n with
  | zero => rfl
  | succ n ih => simp [List.replicate_succ, set_sregs_args, ih]

theorem kvm_mmap_mem_args (prog : String) (code : List Nat) (host : Host) :
    mmap_mem_args (kvm prog code host).calls = [0x40000000] := by
  rw [kvm_calls, mmap_mem_args_append, mmap_mem_args_replicate_run]
  rfl

theorem kvm_set_sregs_args (prog : String) (code : List Nat) (host : Host) :
    set_sregs_args (kvm prog code host).calls =
      [setup_segment_registers (setup_page_tables (memcpy Mem.zero 0 code) host.get_sregs).2] := by
  rw [kvm_calls, set_sregs_args_append, set_sregs_args_replicate_run]
  rfl

/-- C12: `kvm` allocates one guest buffer, of `0x40000000 = 2 ^ 30` bytes (1 GiB), and
registers one memory region, whose record has `slot = 0`, `flags = 0`,
`guest_phys_addr = 0`, `userspace_addr` the address the allocation returned and
`memory_size` the size of the allocation; the slot so maps the guest physical
addresses `[0, 2 ^ 30)` to the whole buffer. -/
theorem kvm_memory_region (prog : String) (code : List Nat) (host : Host) :
    ∃ size region,
      mmap_mem_args (kvm prog code host).calls = [size]
      ∧ region_args (kvm prog code host).calls = [region]
      ∧ size = 0x40000000 ∧ size = 2 ^ 30
      ∧ region.slot = 0 ∧ region.flags = 0 ∧ region.guest_phys_addr = 0
      ∧ region.userspace_addr = host.mem_addr
      ∧ region.memory_size = size
      ∧ Call.set_user_memory_region host.create_vm_ret region ∈ (kvm prog code host).calls := by
  refine ⟨0x40000000, _, kvm_mmap_mem_args prog code host, kvm_region_args prog code host,
    rfl, by decide, rfl, rfl, rfl, rfl, rfl, ?_⟩
  rw [kvm_calls]
  simp

/-! ## Frame of the two setup functions -/

/-- C13: `setup_page_tables` changes guest memory only in the three 8-byte words at
`0x1000`, `0x2000` and `0x3000` (every other byte, so all of `[0, 0x1000)`, is as before)
and changes `sregs` only in `cr3`, `cr4`, `cr0` and `efer`; `setup_segment_registers`
changes `sregs` only in `cs`, `ds`, `es`, `fs`, `gs` and `ss`. The two calls commute:
in either order they yield the same `sregs`, and the same memory. -/
theorem setup_frame (mem : Mem) (sregs : kvm_sregs) :
    (∀ a, ¬ (0x1000 ≤ a ∧ a < 0x1008) → ¬ (0x2000 ≤ a ∧ a < 0x2008) →
        ¬ (0x3000 ≤ a ∧ a < 0x3008) → (setup_page_tables mem sregs).1 a = mem a)
    ∧ (∀ a, a < 0x1000 → (setup_page_tables mem sregs).1 a = mem a)
    ∧ (setup_page_tables mem sregs).2 =
        { sregs with
          cr3 := (setup_page_tables mem sregs).2.cr3,
          cr4 := (setup_page_tables mem sregs).2.cr4,
          cr0 := (setup_page_tables mem sregs).2.cr0,
          efer := (setup_page_tables mem sregs).2.efer }
    ∧ setup_segment_registers sregs =
        { sregs with
          cs := (setup_segment_registers sregs).cs,
          ds := (setup_segment_registers sregs).ds,
          es := (setup_segment_registers sregs).es,
          fs := (setup_segment_registers sregs).fs,
          gs := (setup_segment_registers sregs).gs,
          ss := (setup_segment_registers sregs).ss }
    ∧ setup_segment_registers (setup_page_tables mem sregs).2
        = (setup_page_tables mem (setup_segment_registers sregs)).2
    ∧ (setup_page_tables mem (setup_segment_registers sregs)).1
        = (setup_page_tables mem sregs).1 := by
  refine ⟨fun a h1 h2 h3 => setup_page_tables_mem_other mem sregs a h1 h2 h3,
    fun a h => setup_page_tables_mem_other mem sregs a (by omega) (by omega) (by omega),
    rfl, rfl, rfl, rfl⟩

/-- Witness of C13: memory holding the code of `main`, and the reset special registers.
The first code byte and a byte between the tables are as before, `tr` and `apic_base`
are as before after both calls, and both orders agree. -/
theorem setup_frame_witness :
    (setup_page_tables (memcpy Mem.zero 0 main_code) sregs_reset).1 0 = 0x48
    ∧ (setup_page_tables (memcpy Mem.zero 0 main_code) sregs_reset).1 0x1008
        = (memcpy Mem.zero 0 main_code) 0x1008
    ∧ (setup_segment_registers
        (setup_page_tables (memcpy Mem.zero 0 main_code) sregs_reset).2).tr = sregs_reset.tr
    ∧ (setup_segment_registers
        (setup_page_tables (memcpy Mem.zero 0 main_code) sregs_reset).2).apic_base = 0xfee00900
    ∧ setup_segment_registers (setup_page_tables (memcpy Mem.zero 0 main_code) sregs_reset).2
        = (setup_page_tables (memcpy Mem.zero 0 main_code)
            (setup_segment_registers sregs_reset)).2 := by
  have h := setup_frame (memcpy Mem.zero 0 main_code) sregs_reset
  refine ⟨?_, h.1 0x1008 (by decide) (by decide) (by decide), rfl, rfl, h.2.2.2.2.1⟩
  rw [h.2.1 0 (by decide)]
  decide

/-! ## Layout of the default run -/

/-- C14: in the run `main` starts, the code buffer has 27 bytes, fewer than `0x1000`; the
code range `[0, 27)` meets none of the three table entries and is in guest memory as
written after `setup_page_tables`; the stack pointer is `0x200000`, so a first push
writes the 8 bytes at `rsp - 8 = 0x1ffff8`; every address of the code range, of the table
pages `[0x1000, 0x4000)` and of that stack slot is below `0x200000` and translates to
itself, writable, by the tables and the `cr3` programmed; and `[0, 0x200000)` lies in the
registered region, which starts at guest address 0 and has the `0x40000000` bytes of the
buffer. -/
theorem main_layout (prog : String) (host : Host) :
    main_code.length = 27
    ∧ main_code.length < 0x1000
    ∧ (∀ a, a < main_code.length → ¬ (0x1000 ≤ a ∧ a < 0x1008) ∧ ¬ (0x2000 ≤ a ∧ a < 0x2008)
        ∧ ¬ (0x3000 ≤ a ∧ a < 0x3008))
    ∧ (∀ a (h : a < main_code.length), (main prog host).mem a = main_code.get ⟨a, h⟩)
    ∧ (∃ r, set_regs_args (main prog host).calls = [r] ∧ r.rsp = 0x200000
        ∧ r.rsp - 8 = 0x1ffff8)
    ∧ (∃ s, set_sregs_args (main prog host).calls = [s] ∧ s.cr3 = 0x1000
        ∧ ∀ v, (v < main_code.length ∨ (0x1000 ≤ v ∧ v < 0x4000)
              ∨ (0x1ffff8 ≤ v ∧ v < 0x1ffff8 + 8)) →
            v < 0x200000 ∧ translate (main prog host).mem s.cr3 v = some (v, true))
    ∧ (∃ size g, mmap_mem_args (main prog host).calls = [size]
        ∧ region_args (main prog host).calls = [g]
        ∧ size = 0x40000000 ∧ g.guest_phys_addr = 0 ∧ g.memory_size = size
        ∧ 0x200000 ≤ g.guest_phys_addr + g.memory_size) := by
  have hlen : main_code.length = 27 := rfl
  refine ⟨hlen, by rw [hlen]; decide, ?_, ?_, ?_, ?_, ?_⟩
  · intro a ha
    rw [hlen] at ha
    omega
  · intro a h
    have h' : a < 27 := by rw [hlen] at h; exact h
    show (kvm prog main_code host).mem a = _
    rw [kvm_mem, setup_page_tables_mem_other _ _ _ (by omega) (by omega) (by omega)]
    exact memcpy_apply_lt _ _ _ h
  · refine ⟨{ host.get_regs with rip := 0, rsp := 0x200000, rflags := 0x2 }, ?_, rfl, rfl⟩
    show set_regs_args (kvm prog main_code host).calls = _
    rw [kvm_calls, set_regs_args_append, set_regs_args_replicate_run]
    rfl
  · refine ⟨_, kvm_set_sregs_args prog main_code host, rfl, ?_⟩
    intro v hv
    have hlt : v < 0x200000 := by
      rw [hlen] at hv
      omega
    refine ⟨hlt, ?_⟩
    show translate (kvm prog main_code host).mem 0x1000 v = _
    rw [kvm_mem]
    exact translate_low _ _ v hlt
  · exact ⟨0x40000000, _, kvm_mmap_mem_args prog main_code host,
      kvm_region_args prog main_code host, rfl, rfl, rfl,
      by show (0x200000 : Nat) ≤ 0 + 0x40000000; decide⟩

end Kvm
